import Mathlib

/-!
Verification of the purchase-pattern analyzer (`PurchaseAnalyzer` in
`src/data_analyzer.py`) against its natural-language specification.

The analyzer holds a cleaned table of transaction rows and offers per-customer
queries: filtered purchases, product aggregates, recommendations, spending
summaries and monthly trends.  We embed the table as a `List Row` and each
method as a Lean function over it.  Machine floats are modelled by `ℚ`
(every numeric literal and comparison the claims exercise is exact in both),
`NaN` by `Option`, and pandas boolean-mask filtering by `List.filter`.
-/

namespace WalmartDashboard

/-! ## Record normalizer (`process_data`) — the price repair pipeline

`self.df['CleanPrice'] = self.df['TotalPrice'].astype(str).str.split('.').str[0]`
`self.df['CleanPrice'] = pd.to_numeric(self.df['CleanPrice'].str.replace(r'[^\d.]', '', regex=True), errors='coerce')`
`self.df['CleanPrice'] = self.df['CleanPrice'].fillna(self.df['Base Price'])`
-/

/-- `str.split('.').str[0]`: the text strictly before the first `'.'`
(the whole string when it has no dot). -/
def splitFirstDot (s : String) : String :=
  ⟨s.data.takeWhile (fun c => c != '.')⟩

/-- `str.replace(r'[^\d.]', '', regex=True)`: keep only digits and dots. -/
def stripNonDigitDot (s : String) : String :=
  ⟨s.data.filter (fun c => c.isDigit || c == '.')⟩

/-- Numeric value of a string of decimal digits. -/
def digitsVal (l : List Char) : Nat :=
  l.foldl (fun n c => 10 * n + (c.toNat - 48)) 0

/-- Python `split('.')` on a character list: the runs between the dots
(an empty run for each pair of adjacent dots, a leading/trailing empty run
for a leading/trailing dot; `[[]]` for the empty string). -/
def splitOnDot : List Char → List (List Char)
  | [] => [[]]
  | c :: cs =>
    if c = '.' then [] :: splitOnDot cs
    else
      match splitOnDot cs with
      | [] => [[c]]
      | p :: ps => (c :: p) :: ps

/-- `pd.to_numeric(..., errors='coerce')` restricted to the strings this
pipeline can feed it (digits and dots): parse `digits`, `digits.digits`,
`digits.` or `.digits` (at least one digit); everything else coerces to
`NaN` (`none`). -/
def toNumericCoerce (s : String) : Option ℚ :=
  match splitOnDot s.data with
  | [ip] =>
      if 0 < ip.length ∧ ip.all Char.isDigit then
        some (digitsVal ip)
      else none
  | [ip, fp] =>
      if 0 < ip.length + fp.length ∧ ip.all Char.isDigit ∧ fp.all Char.isDigit then
        some ((digitsVal ip : ℚ) + (digitsVal fp : ℚ) / 10 ^ fp.length)
      else none
  | _ => none

/-- The repaired price of one row: the parsed, stripped, dot-truncated total
price, falling back to the base price when parsing coerced to `NaN`
(`fillna(self.df['Base Price'])`). -/
def cleanPrice (totalPrice : String) (basePrice : Option ℚ) : Option ℚ :=
  match toNumericCoerce (stripNonDigitDot (splitFirstDot totalPrice)) with
  | some q => some q
  | none => basePrice

/-! ## Data model -/

/-- One row of the cleaned table.  `orderDate` is the `to_datetime` value in
days; `month` is the derived `dt.month` column (1–12 in the real pipeline,
carried here as data and constrained by hypothesis where a claim needs it). -/
structure Row where
  customerId : Nat
  orderId : Nat
  itemName : String
  category : String
  orderDate : Int
  month : Int
  quantity : Int
  totalPrice : String
  basePrice : Option ℚ
deriving DecidableEq

/-- The `CleanPrice` column of a row. -/
def Row.cleanPrice (r : Row) : Option ℚ :=
  WalmartDashboard.cleanPrice r.totalPrice r.basePrice

/-- Round to `n` decimal digits, as pandas `.round(n)` / Python `round(x, n)`.
(Those round half to even while `round` here rounds half up; no value any
claim exercises sits on a half-way point, and both are monotone.) -/
def roundTo (n : Nat) (q : ℚ) : ℚ :=
  (round (q * 10 ^ n) : ℚ) / 10 ^ n

/-! ## Per-customer row selection and filters -/

/-- `self.df[self.df['CustomerID'] == user_id]`. -/
def userRows (df : List Row) (userId : Nat) : List Row :=
  df.filter (fun r => r.customerId == userId)

/-- `if month: user_data = user_data[user_data['Month'] == month]` —
Python truthiness, so `month = 0` (like `None`) applies no filter. -/
def applyMonthFilter (rows : List Row) (month : Option Int) : List Row :=
  match month with
  | none => rows
  | some m => if m = 0 then rows else rows.filter (fun r => r.month == m)

/-- `if category: user_data = user_data[user_data['Category'] == category]` —
Python truthiness, so the empty string applies no filter. -/
def applyCategoryFilter (rows : List Row) (category : Option String) : List Row :=
  match category with
  | none => rows
  | some c => if c = "" then rows else rows.filter (fun r => r.category == c)

/-- `get_user_purchases(user_id, month=None, category=None)`. -/
def get_user_purchases (df : List Row) (userId : Nat)
    (month : Option Int) (category : Option String) : List Row :=
  applyCategoryFilter (applyMonthFilter (userRows df userId) month) category

/-! ## Pattern aggregator (`analyze_purchase_patterns`) -/

/-- One product-aggregate row (the flattened groupby output). -/
structure ProductStat where
  itemName : String
  category : String
  purchase_count : Nat
  first_purchase : Int
  last_purchase : Int
  avg_price : Option ℚ
  total_quantity : Int
  days_span : Int
  avg_interval : ℚ
deriving DecidableEq

/-- Minimum of a list of dates (`'OrderDate': 'min'` on a group). -/
def listMin : List Int → Int
  | [] => 0
  | d :: ds => ds.foldl min d

/-- Maximum of a list of dates (`'OrderDate': 'max'` on a group). -/
def listMax : List Int → Int
  | [] => 0
  | d :: ds => ds.foldl max d

/-- Aggregate one `(Item Name, Category)` group: count, min/max date, mean
clean price (`NaN` when no price is present, skipped otherwise), summed
quantity, then `days_span = (max − min).days` and
`avg_interval = days_span / (purchase_count − 1)` with the `0/0 = NaN`
single-purchase case filled to `0` by `fillna(0)`. -/
def mkStat (k : String × String) (g : List Row) : ProductStat :=
  let dates := g.map (fun r => r.orderDate)
  let count := g.length
  let first := listMin dates
  let last := listMax dates
  let span := last - first
  let prices := g.filterMap Row.cleanPrice
  { itemName := k.1
    category := k.2
    purchase_count := count
    first_purchase := first
    last_purchase := last
    avg_price :=
      if prices.isEmpty then none
      else some (roundTo 2 (prices.sum / (prices.length : ℚ)))
    total_quantity := (g.map (fun r => r.quantity)).sum
    days_span := span
    avg_interval := if count = 1 then 0 else (span : ℚ) / ((count : ℚ) - 1) }

/-- The distinct `(Item Name, Category)` group keys of a row set. -/
def groupKeys (rows : List Row) : List (String × String) :=
  (rows.map (fun r => (r.itemName, r.category))).dedup

/-- The rows of one group. -/
def groupRows (rows : List Row) (k : String × String) : List Row :=
  rows.filter (fun r => r.itemName == k.1 && r.category == k.2)

/-- `analyze_purchase_patterns(user_id)`: one aggregate row per distinct
`(Item Name, Category)` pair among the customer's rows. -/
def analyze_purchase_patterns (df : List Row) (userId : Nat) : List ProductStat :=
  let ud := userRows df userId
  (groupKeys ud).map (fun k => mkStat k (groupRows ud k))

/-! ## Recommendation filter/ranker (`generate_recommendations`) -/

/-- The boolean-mask filter of `generate_recommendations`:
`(purchase_count >= min_purchases) & (avg_interval > 0) &
 (avg_interval <= target_interval_days * 1.5) &
 (avg_interval >= target_interval_days * 0.5)`. -/
def recPred (min_purchases : Int) (target_interval_days : ℚ) (s : ProductStat) : Prop :=
  min_purchases ≤ (s.purchase_count : Int) ∧
  0 < s.avg_interval ∧
  s.avg_interval ≤ target_interval_days * 1.5 ∧
  target_interval_days * 0.5 ≤ s.avg_interval

instance (mp : Int) (t : ℚ) (s : ProductStat) : Decidable (recPred mp t s) :=
  inferInstanceAs (Decidable (mp ≤ (s.purchase_count : Int) ∧
    0 < s.avg_interval ∧ s.avg_interval ≤ t * 1.5 ∧ t * 0.5 ≤ s.avg_interval))

/-- The sort key of
`sort_values(['purchase_count', 'avg_interval'], ascending=[False, True])`:
descending purchase count, then ascending average interval. -/
def recOrder (a b : ProductStat) : Prop :=
  b.purchase_count < a.purchase_count ∨
  (a.purchase_count = b.purchase_count ∧ a.avg_interval ≤ b.avg_interval)

instance : DecidableRel recOrder := fun a b =>
  inferInstanceAs (Decidable (b.purchase_count < a.purchase_count ∨
    (a.purchase_count = b.purchase_count ∧ a.avg_interval ≤ b.avg_interval)))

instance : IsTotal ProductStat recOrder :=
  ⟨fun a b => by
    unfold recOrder
    rcases lt_trichotomy a.purchase_count b.purchase_count with h | h | h
    · exact Or.inr (Or.inl h)
    · rcases le_total a.avg_interval b.avg_interval with h2 | h2
      · exact Or.inl (Or.inr ⟨h, h2⟩)
      · exact Or.inr (Or.inr ⟨h.symm, h2⟩)
    · exact Or.inl (Or.inl h)⟩

instance : IsTrans ProductStat recOrder :=
  ⟨fun a b c hab hbc => by
    unfold recOrder at hab hbc ⊢
    rcases hab with h1 | ⟨e1, le1⟩ <;> rcases hbc with h2 | ⟨e2, le2⟩
    · exact Or.inl (h2.trans h1)
    · exact Or.inl (e2 ▸ h1)
    · exact Or.inl (e1 ▸ h2)
    · exact Or.inr ⟨e1.trans e2, le1.trans le2⟩⟩

/-- One bucket-list entry.  The `recommendation_reason` display string is a
pure function of `purchase_count` and `avg_interval_days` and is not
modelled. -/
structure RecEntry where
  item : String
  category : String
  purchase_count : Nat
  avg_interval_days : ℚ
  avg_price : Option ℚ
deriving DecidableEq

/-- Build one bucket-list entry from an aggregate row
(`round(row['avg_interval'], 1)`, `round(row['avg_price'], 2)`). -/
def toEntry (s : ProductStat) : RecEntry :=
  { item := s.itemName
    category := s.category
    purchase_count := s.purchase_count
    avg_interval_days := roundTo 1 s.avg_interval
    avg_price := s.avg_price.map (roundTo 2) }

/-- `generate_recommendations(user_id, min_purchases=2, target_interval_days=30)`:
filter the aggregates, sort by the key, build entries, then `bucket_list[:15]`. -/
def generate_recommendations (df : List Row) (userId : Nat)
    (min_purchases : Int) (target_interval_days : ℚ) : List RecEntry :=
  let analysis := analyze_purchase_patterns df userId
  let recs := analysis.filter (fun s => decide (recPred min_purchases target_interval_days s))
  let sorted := recs.insertionSort recOrder
  (sorted.map toEntry).take 15

/-! ## Summary views -/

/-- One row of `get_spending_summary`. -/
structure CategorySummary where
  category : String
  total_spent : ℚ
  num_orders : Nat
  num_items : Nat
deriving DecidableEq

/-- `get_spending_summary(user_id, month=None)`: optional month filter, group
by category, per group the summed clean price (rounded to 2), the number of
distinct order ids and the row count. -/
def get_spending_summary (df : List Row) (userId : Nat) (month : Option Int) :
    List CategorySummary :=
  let ud := applyMonthFilter (userRows df userId) month
  ((ud.map (fun r => r.category)).dedup).map (fun c =>
    let g := ud.filter (fun r => r.category == c)
    { category := c
      total_spent := roundTo 2 (g.filterMap Row.cleanPrice).sum
      num_orders := ((g.map (fun r => r.orderId)).dedup).length
      num_items := g.length })

/-- One row of `get_monthly_trends`. -/
structure MonthlyTrend where
  month : Int
  category : String
  cleanPriceSum : ℚ
deriving DecidableEq

/-- `get_monthly_trends(user_id)`: group the customer's rows by
`(Month, Category)` and sum the clean price. -/
def get_monthly_trends (df : List Row) (userId : Nat) : List MonthlyTrend :=
  let ud := userRows df userId
  ((ud.map (fun r => (r.month, r.category))).dedup).map (fun k =>
    let g := ud.filter (fun r => r.month == k.1 && r.category == k.2)
    { month := k.1
      category := k.2
      cleanPriceSum := roundTo 2 (g.filterMap Row.cleanPrice).sum })

/-! ## Basic facts about the embedded operations -/

/-- `analyze_purchase_patterns` with its `let` bindings unfolded. -/
lemma analyze_eq (df : List Row) (u : Nat) :
    analyze_purchase_patterns df u =
      (groupKeys (userRows df u)).map (fun k => mkStat k (groupRows (userRows df u) k)) := rfl

/-- `generate_recommendations` with its `let` bindings unfolded. -/
lemma gen_eq (df : List Row) (u : Nat) (mp : Int) (t : ℚ) :
    generate_recommendations df u mp t =
      ((((analyze_purchase_patterns df u).filter
          (fun s => decide (recPred mp t s))).insertionSort recOrder).map toEntry).take 15 := rfl

/-- `get_spending_summary` with its `let` bindings unfolded. -/
lemma spending_eq (df : List Row) (u : Nat) (m : Option Int) :
    get_spending_summary df u m =
      (((applyMonthFilter (userRows df u) m).map (fun r => r.category)).dedup).map (fun c =>
        let g := (applyMonthFilter (userRows df u) m).filter (fun r => r.category == c)
        { category := c
          total_spent := roundTo 2 (g.filterMap Row.cleanPrice).sum
          num_orders := ((g.map (fun r => r.orderId)).dedup).length
          num_items := g.length }) := rfl

/-- `get_monthly_trends` with its `let` bindings unfolded. -/
lemma monthly_eq (df : List Row) (u : Nat) :
    get_monthly_trends df u =
      (((userRows df u).map (fun r => (r.month, r.category))).dedup).map (fun k =>
        let g := (userRows df u).filter (fun r => r.month == k.1 && r.category == k.2)
        { month := k.1
          category := k.2
          cleanPriceSum := roundTo 2 (g.filterMap Row.cleanPrice).sum }) := rfl

lemma mkStat_count (k : String × String) (g : List Row) :
    (mkStat k g).purchase_count = g.length := rfl

lemma mkStat_span (k : String × String) (g : List Row) :
    (mkStat k g).days_span =
      listMax (g.map (fun r => r.orderDate)) - listMin (g.map (fun r => r.orderDate)) := rfl

lemma mkStat_avg (k : String × String) (g : List Row) :
    (mkStat k g).avg_interval =
      if g.length = 1 then 0 else ((mkStat k g).days_span : ℚ) / ((g.length : ℚ) - 1) := rfl

lemma foldl_min_le_foldl_max : ∀ (l : List Int) {a b : Int}, a ≤ b →
    l.foldl min a ≤ l.foldl max b
  | [], _, _, h => h
  | c :: l, a, b, h =>
    foldl_min_le_foldl_max l
      (le_trans (min_le_left a c) (le_trans h (le_max_left b c)))

lemma listMin_le_listMax (l : List Int) : listMin l ≤ listMax l := by
  cases l with
  | nil => exact le_refl 0
  | cons d ds => exact foldl_min_le_foldl_max ds le_rfl

lemma mkStat_span_nonneg (k : String × String) (g : List Row) : 0 ≤ (mkStat k g).days_span := by
  rw [mkStat_span]
  exact sub_nonneg.mpr (listMin_le_listMax _)

lemma mkStat_avg_nonneg (k : String × String) (g : List Row) : 0 ≤ (mkStat k g).avg_interval := by
  rw [mkStat_avg]
  split
  · exact le_refl 0
  · rcases Nat.eq_zero_or_pos g.length with h0 | h1
    · rw [List.length_eq_zero] at h0
      subst h0
      norm_num [mkStat_span, listMin, listMax]
    · apply div_nonneg
      · exact_mod_cast mkStat_span_nonneg k g
      · have : (1 : ℚ) ≤ (g.length : ℚ) := by exact_mod_cast h1
        linarith

lemma mkStat_avg_of_count_one (k : String × String) (g : List Row) (h : g.length = 1) :
    (mkStat k g).avg_interval = 0 := by
  rw [mkStat_avg, if_pos h]

lemma count_ge_two_of_avg_pos (k : String × String) (g : List Row)
    (h : 0 < (mkStat k g).avg_interval) : 2 ≤ g.length := by
  by_contra hc
  push_neg at hc
  interval_cases hl : g.length
  · rw [List.length_eq_zero] at hl
    subst hl
    norm_num [mkStat_avg, mkStat_span, listMin, listMax] at h
  · rw [mkStat_avg_of_count_one k g hl] at h
    exact lt_irrefl 0 h

lemma mem_analyze {df : List Row} {u : Nat} {s : ProductStat}
    (hs : s ∈ analyze_purchase_patterns df u) :
    ∃ k, k ∈ groupKeys (userRows df u) ∧ s = mkStat k (groupRows (userRows df u) k) := by
  rw [analyze_eq] at hs
  rcases List.mem_map.mp hs with ⟨k, hk, he⟩
  exact ⟨k, hk, he.symm⟩

lemma groupRows_ne_nil {rows : List Row} {k : String × String}
    (hk : k ∈ groupKeys rows) : groupRows rows k ≠ [] := by
  rw [groupKeys, List.mem_dedup] at hk
  rcases List.mem_map.mp hk with ⟨r, hr, hkey⟩
  intro hnil
  rw [groupRows, List.filter_eq_nil_iff] at hnil
  apply hnil r hr
  simp [← hkey]

lemma analyze_count_pos {df : List Row} {u : Nat} {s : ProductStat}
    (hs : s ∈ analyze_purchase_patterns df u) : 1 ≤ s.purchase_count := by
  rcases mem_analyze hs with ⟨k, hk, he⟩
  subst he
  rw [mkStat_count]
  exact List.length_pos.mpr (groupRows_ne_nil hk)

lemma mem_gen {df : List Row} {u : Nat} {mp : Int} {t : ℚ} {e : RecEntry}
    (he : e ∈ generate_recommendations df u mp t) :
    ∃ s, s ∈ analyze_purchase_patterns df u ∧ recPred mp t s ∧ toEntry s = e := by
  rw [gen_eq] at he
  rcases List.mem_map.mp (List.mem_of_mem_take he) with ⟨s, hs, hse⟩
  rw [List.mem_insertionSort, List.mem_filter] at hs
  exact ⟨s, hs.1, of_decide_eq_true hs.2, hse⟩

lemma gen_count_ge_two {df : List Row} {u : Nat} {mp : Int} {t : ℚ} {e : RecEntry}
    (he : e ∈ generate_recommendations df u mp t) : 2 ≤ e.purchase_count := by
  rcases mem_gen he with ⟨s, hs, hp, hse⟩
  subst hse
  show 2 ≤ s.purchase_count
  rcases mem_analyze hs with ⟨k, _, he2⟩
  subst he2
  rw [mkStat_count]
  exact count_ge_two_of_avg_pos _ _ hp.2.1

/-! ## Ordering of the output entries -/

/-- The spec-side sort key read off a bucket-list entry: descending purchase
count, then ascending (rounded) average interval. -/
def entryOrder (a b : RecEntry) : Prop :=
  b.purchase_count < a.purchase_count ∨
  (a.purchase_count = b.purchase_count ∧ a.avg_interval_days ≤ b.avg_interval_days)

lemma roundTo_mono (n : Nat) {a b : ℚ} (h : a ≤ b) : roundTo n a ≤ roundTo n b := by
  unfold roundTo
  have hp : (0 : ℚ) < 10 ^ n := by positivity
  have hm : a * 10 ^ n ≤ b * 10 ^ n := mul_le_mul_of_nonneg_right h hp.le
  have hr : round (a * 10 ^ n) ≤ round (b * 10 ^ n) := by
    rw [round_eq, round_eq]
    exact Int.floor_mono (by linarith)
  exact div_le_div_of_nonneg_right (by exact_mod_cast hr) hp.le

lemma toEntry_mono {a b : ProductStat} (h : recOrder a b) :
    entryOrder (toEntry a) (toEntry b) := by
  unfold recOrder at h
  unfold entryOrder toEntry
  rcases h with h | ⟨he, hle⟩
  · exact Or.inl h
  · exact Or.inr ⟨he, roundTo_mono 1 hle⟩

/-! ## Emptiness and subset lemmas -/

lemma applyMonthFilter_nil (m : Option Int) : applyMonthFilter [] m = [] := by
  cases m <;> simp [applyMonthFilter]

lemma applyCategoryFilter_nil (c : Option String) : applyCategoryFilter [] c = [] := by
  cases c <;> simp [applyCategoryFilter]

lemma applyMonthFilter_subset (rows : List Row) (m : Option Int) :
    applyMonthFilter rows m ⊆ rows := by
  cases m with
  | none => exact fun _ h => h
  | some v =>
    show (if v = 0 then rows else rows.filter (fun r => r.month == v)) ⊆ rows
    by_cases h : v = 0
    · rw [if_pos h]
      exact fun _ hr => hr
    · rw [if_neg h]
      exact (List.filter_sublist _).subset

lemma userRows_subset (df : List Row) (u : Nat) : userRows df u ⊆ df :=
  (List.filter_sublist _).subset

lemma userRows_eq_nil {df : List Row} {u : Nat} (h : ∀ r ∈ df, r.customerId ≠ u) :
    userRows df u = [] := by
  rw [userRows, List.filter_eq_nil_iff]
  intro r hr
  simpa using h r hr

/-- A nonzero month outside 1–12 filters away every row whose `month` column
is in the calendar range. -/
lemma monthFilter_out_of_range {df : List Row} {u : Nat} {m : Int}
    (hm : m ≠ 0) (hout : m < 1 ∨ 12 < m)
    (hdf : ∀ r ∈ df, 1 ≤ r.month ∧ r.month ≤ 12) :
    applyMonthFilter (userRows df u) (some m) = [] := by
  show (if m = 0 then userRows df u else (userRows df u).filter (fun r => r.month == m)) = []
  rw [if_neg hm, List.filter_eq_nil_iff]
  intro r hr
  have h2 := hdf r (userRows_subset df u hr)
  simp only [beq_iff_eq]
  omega

/-! ## Summation over category groups -/

/-- A rational that is a whole number of hundredths (all prices are, once the
repaired totals parse to integers and base prices are cents). -/
def IsCent (q : ℚ) : Prop := ∃ k : ℤ, q = (k : ℚ) / 100

lemma IsCent.add {a b : ℚ} (ha : IsCent a) (hb : IsCent b) : IsCent (a + b) := by
  rcases ha with ⟨j, rfl⟩
  rcases hb with ⟨k, rfl⟩
  exact ⟨j + k, by push_cast; ring⟩

lemma isCent_sum {l : List ℚ} (h : ∀ q ∈ l, IsCent q) : IsCent l.sum := by
  induction l with
  | nil => exact ⟨0, by norm_num⟩
  | cons a l ih =>
    rw [List.sum_cons]
    exact (h a (List.mem_cons_self a l)).add (ih (fun q hq => h q (List.mem_cons_of_mem a hq)))

lemma roundTo_two_of_isCent {q : ℚ} (h : IsCent q) : roundTo 2 q = q := by
  rcases h with ⟨k, rfl⟩
  unfold roundTo
  have h1 : (k : ℚ) / 100 * 10 ^ 2 = k := by
    rw [show ((10 : ℚ) ^ 2) = 100 by norm_num,
      div_mul_cancel₀ _ (by norm_num : (100 : ℚ) ≠ 0)]
  rw [h1, round_intCast]
  norm_num

lemma sum_filterMap_eq_sum_map (l : List Row) :
    (l.filterMap Row.cleanPrice).sum = (l.map (fun r => (Row.cleanPrice r).getD 0)).sum := by
  induction l with
  | nil => rfl
  | cons a l ih =>
    rw [List.filterMap_cons, List.map_cons, List.sum_cons]
    cases h : Row.cleanPrice a <;> simp [h, ih]

lemma sum_map_filter_not (l : List Row) (p : Row → Bool) (f : Row → ℚ) :
    ((l.filter p).map f).sum + ((l.filter (fun a => !p a)).map f).sum = (l.map f).sum := by
  induction l with
  | nil => simp
  | cons a l ih =>
    by_cases h : p a <;>
      simp only [List.filter_cons, h, Bool.not_true, Bool.not_false, if_pos, if_neg,
        Bool.false_eq_true, ite_true, ite_false, List.map_cons, List.sum_cons] <;>
      linarith [ih]

/-- Summing a function group-by-group over a distinct key list that covers
every element gives the plain sum. -/
lemma sum_groups (key : Row → String) (f : Row → ℚ) :
    ∀ ks : List String, ks.Nodup → ∀ l : List Row, (∀ a ∈ l, key a ∈ ks) →
      (ks.map (fun c => ((l.filter (fun a => key a == c)).map f).sum)).sum = (l.map f).sum := by
  intro ks
  induction ks with
  | nil =>
    intro _ l hl
    have : l = [] := List.eq_nil_iff_forall_not_mem.mpr (fun a ha => by simpa using hl a ha)
    subst this
    simp
  | cons k ks ih =>
    intro hnd l hl
    rw [List.map_cons, List.sum_cons]
    have htail : ks.map (fun c => ((l.filter (fun a => key a == c)).map f).sum) =
        ks.map (fun c =>
          (((l.filter (fun a => !(key a == k))).filter (fun a => key a == c)).map f).sum) := by
      apply List.map_congr_left
      intro c hc
      have hck : c ≠ k := fun hck => (List.nodup_cons.mp hnd).1 (hck ▸ hc)
      have hfe : l.filter (fun a => key a == c) =
          (l.filter (fun a => !(key a == k))).filter (fun a => key a == c) := by
        rw [List.filter_filter]
        apply List.filter_congr
        intro a _
        by_cases hkc : key a = c
        · simp [hkc, hck.symm, hck]
        · simp [hkc]
      rw [hfe]
    rw [htail, ih (List.nodup_cons.mp hnd).2 (l.filter (fun a => !(key a == k)))
      (fun a ha => by
        have h1 := hl a (List.mem_of_mem_filter ha)
        have h2 := List.of_mem_filter ha
        simp only [Bool.not_eq_true', beq_eq_false_iff_ne, ne_eq] at h2
        rcases List.mem_cons.mp h1 with h | h
        · exact absurd h h2
        · exact h)]
    exact sum_map_filter_not l (fun a => key a == k) f

/-! ## Concrete fixtures -/

/-- A single-purchase customer: one row, customer 1, month 1, price text `"5"`. -/
def rowA : Row :=
  { customerId := 1, orderId := 1, itemName := "Milk", category := "Dairy",
    orderDate := 0, month := 1, quantity := 1, totalPrice := "5", basePrice := none }

def dfA : List Row := [rowA]

def statA : ProductStat := mkStat ("Milk", "Dairy") [rowA]

/-- A repeat-purchase customer: the same item bought on day 0 and day 30. -/
def rowB1 : Row :=
  { customerId := 2, orderId := 10, itemName := "Eggs", category := "Dairy",
    orderDate := 0, month := 1, quantity := 1, totalPrice := "4", basePrice := none }

def rowB2 : Row := { rowB1 with orderId := 11, orderDate := 30, month := 2 }

def dfB : List Row := [rowB1, rowB2]

def statB : ProductStat := mkStat ("Eggs", "Dairy") [rowB1, rowB2]

def entryB : RecEntry := toEntry statB

lemma analyzeA : analyze_purchase_patterns dfA 1 = [statA] := rfl

lemma analyzeB : analyze_purchase_patterns dfB 2 = [statB] := rfl

lemma statB_avg : statB.avg_interval = 30 := by
  simp [statB, mkStat, listMin, listMax, rowB1, rowB2]
  norm_num

lemma recPred_statB : recPred 2 30 statB := by
  refine ⟨by norm_num [statB, mkStat], ?_, ?_, ?_⟩ <;> rw [statB_avg] <;> norm_num

lemma genB : generate_recommendations dfB 2 2 30 = [entryB] := by
  rw [gen_eq, analyzeB, List.filter_cons, List.filter_nil,
    if_pos (by simpa using recPred_statB)]
  rfl

lemma cleanPrice_rowA : Row.cleanPrice rowA = some 5 := by decide

/-! ## Claims -/

/-- C1, counterexample: the price repair does NOT keep the fractional part —
`"19.99123"` does not normalize to `19.99`, because `split('.')[0]` drops
everything from the first dot on. -/
theorem priceRepair_fraction_lost :
    cleanPrice "19.99123" none ≠ some (1999 / 100 : ℚ) := by
  have h : cleanPrice "19.99123" none = some 19 := by decide
  rw [h]
  intro hc
  have h19 : (19 : ℚ) = 1999 / 100 := Option.some.inj hc
  norm_num at h19

/-- C1, amended: the price repair takes the raw total-price text strictly
before the first decimal point, strips non-digit/non-dot characters and
parses it as a decimal, falling back to the base price when parsing fails:
`"19.99123"` normalizes to `19` whatever the base price, `"abc"` with base
price `9.5` normalizes to `9.5`, and `"abc"` with a missing base price leaves
the clean price missing. -/
theorem priceRepair_truncates_at_first_dot :
    (∀ b : Option ℚ, cleanPrice "19.99123" b = some 19) ∧
    cleanPrice "abc" (some (19 / 2 : ℚ)) = some (19 / 2 : ℚ) ∧
    cleanPrice "abc" none = none := by
  refine ⟨?_, rfl, by decide⟩
  intro b
  have h : toNumericCoerce (stripNonDigitDot (splitFirstDot "19.99123")) = some 19 := by
    decide
  unfold cleanPrice
  rw [h]

/-- C2: for every customer, `min_purchases` and positive
`target_interval_days`, the recommendation list has length at most 15 and is
sorted lexicographically by descending purchase count then ascending average
interval (truncation happens after sorting, so the retained prefix is
sorted). -/
theorem recommendations_length_sorted (df : List Row) (u : Nat) (mp : Int) (t : ℚ)
    (ht : 0 < t) :
    (generate_recommendations df u mp t).length ≤ 15 ∧
    List.Sorted entryOrder (generate_recommendations df u mp t) := by
  constructor
  · rw [gen_eq]
    exact List.length_take_le _ _
  · rw [gen_eq]
    apply List.Pairwise.sublist (List.take_sublist _ _)
    exact List.Pairwise.map toEntry (fun a b h => toEntry_mono h)
      (List.sorted_insertionSort recOrder _)

theorem recommendations_length_sorted_witness :
    (generate_recommendations [] 1 2 30).length ≤ 15 ∧
    List.Sorted entryOrder (generate_recommendations [] 1 2 30) :=
  recommendations_length_sorted [] 1 2 30 (by norm_num)

/-- C8: a non-positive `target_interval_days` yields an empty recommendation
list (the filter needs `0 < avg_interval ≤ target_interval_days * 1.5`). -/
theorem nonpos_target_empty (df : List Row) (u : Nat) (mp : Int) (t : ℚ) (ht : t ≤ 0) :
    generate_recommendations df u mp t = [] := by
  rw [gen_eq]
  have hf : (analyze_purchase_patterns df u).filter (fun s => decide (recPred mp t s)) = [] := by
    rw [List.filter_eq_nil_iff]
    intro s _
    simp only [decide_eq_true_eq]
    rintro ⟨-, h2, h3, -⟩
    have h15 : t * 1.5 ≤ 0 := by linarith
    linarith
  rw [hf]
  rfl

theorem nonpos_target_empty_witness : generate_recommendations dfA 1 2 (-30) = [] :=
  nonpos_target_empty dfA 1 2 (-30) (by norm_num)

/-- C9: a `min_purchases` below 1 behaves exactly like `min_purchases = 1`,
because every aggregate row has purchase count at least 1. -/
theorem min_purchases_clamped (df : List Row) (u : Nat) (t : ℚ) (mp : Int)
    (hmp : mp < 1) :
    generate_recommendations df u mp t = generate_recommendations df u 1 t := by
  rw [gen_eq, gen_eq]
  have hf : (analyze_purchase_patterns df u).filter (fun s => decide (recPred mp t s)) =
      (analyze_purchase_patterns df u).filter (fun s => decide (recPred 1 t s)) := by
    apply List.filter_congr
    intro s hs
    have hc := analyze_count_pos hs
    apply decide_eq_decide.mpr
    unfold recPred
    constructor
    · rintro ⟨-, h⟩
      exact ⟨by exact_mod_cast hc, h⟩
    · rintro ⟨-, h⟩
      have h1 : (1 : Int) ≤ (s.purchase_count : Int) := by exact_mod_cast hc
      exact ⟨by omega, h⟩
  rw [hf]

theorem min_purchases_clamped_witness :
    generate_recommendations dfB 2 0 30 = generate_recommendations dfB 2 1 30 :=
  min_purchases_clamped dfB 2 30 0 (by norm_num)

/-- C10: every recommended entry has purchase count at least 2 — the filter
requires a positive average interval, impossible for a product bought on a
single date. -/
theorem recommended_count_ge_two (df : List Row) (u : Nat) (mp : Int) (t : ℚ)
    (ht : 0 < t) :
    ∀ e ∈ generate_recommendations df u mp t, 2 ≤ e.purchase_count :=
  fun _ he => gen_count_ge_two he

theorem recommended_count_ge_two_witness : 2 ≤ entryB.purchase_count :=
  recommended_count_ge_two dfB 2 2 30 (by norm_num) entryB
    (by rw [genB]; exact List.mem_singleton.mpr rfl)

/-- C3: in every product-aggregate row the average interval is never
negative, equals `days_span / (purchase_count − 1)` for repeat purchases and
is exactly 0 for single-purchase products; and no entry of any recommendation
output has purchase count 1. -/
theorem avg_interval_invariant (df : List Row) (u : Nat) (mp : Int) (t : ℚ) :
    (∀ s ∈ analyze_purchase_patterns df u,
      0 ≤ s.avg_interval ∧
      (s.purchase_count = 1 → s.avg_interval = 0) ∧
      (1 < s.purchase_count →
        s.avg_interval = (s.days_span : ℚ) / ((s.purchase_count : ℚ) - 1))) ∧
    (∀ e ∈ generate_recommendations df u mp t, e.purchase_count ≠ 1) := by
  constructor
  · intro s hs
    rcases mem_analyze hs with ⟨k, hk, he⟩
    subst he
    refine ⟨mkStat_avg_nonneg k _, ?_, ?_⟩
    · intro h1
      rw [mkStat_count] at h1
      exact mkStat_avg_of_count_one k _ h1
    · intro h1
      rw [mkStat_count] at h1
      rw [mkStat_avg, if_neg (by omega), mkStat_count]
  · intro e he
    have h2 := gen_count_ge_two he
    omega

theorem avg_interval_invariant_witness :
    (0 ≤ statA.avg_interval ∧ (statA.purchase_count = 1 → statA.avg_interval = 0) ∧
      (1 < statA.purchase_count →
        statA.avg_interval = (statA.days_span : ℚ) / ((statA.purchase_count : ℚ) - 1))) ∧
    entryB.purchase_count ≠ 1 :=
  ⟨(avg_interval_invariant dfA 1 2 30).1 statA
      (by rw [analyzeA]; exact List.mem_singleton.mpr rfl),
   (avg_interval_invariant dfB 2 2 30).2 entryB
      (by rw [genB]; exact List.mem_singleton.mpr rfl)⟩

/-- C4, counterexample: a month of `0` lies outside 1–12, yet the purchases
query with `month = 0` returns the customer's full (nonempty) row set, not an
empty result — Python's `if month:` treats `0` as "no filter". -/
theorem month_zero_counterexample :
    ((0 : Int) < 1 ∨ 12 < (0 : Int)) ∧
    get_user_purchases dfA 1 (some 0) none = dfA ∧ dfA ≠ [] ∧
    get_spending_summary dfA 1 (some 0) ≠ [] := by
  refine ⟨Or.inl (by norm_num), rfl, by decide, ?_⟩
  rw [spending_eq]
  decide

/-- C4, amended: a NONZERO month filter value outside 1–12 yields an empty
result set from the purchases query and from the spending summary (no
exception), while `month = 0` is falsy and is treated as an absent filter. -/
theorem month_out_of_range_empty (df : List Row) (u : Nat) (m : Int) (c : Option String)
    (hm : m ≠ 0) (hout : m < 1 ∨ 12 < m)
    (hdf : ∀ r ∈ df, 1 ≤ r.month ∧ r.month ≤ 12) :
    get_user_purchases df u (some m) c = [] ∧ get_spending_summary df u (some m) = [] := by
  have h0 : applyMonthFilter (userRows df u) (some m) = [] :=
    monthFilter_out_of_range hm hout hdf
  constructor
  · show applyCategoryFilter (applyMonthFilter (userRows df u) (some m)) c = []
    rw [h0, applyCategoryFilter_nil]
  · rw [spending_eq, h0]
    rfl

theorem month_out_of_range_empty_witness :
    get_user_purchases dfA 1 (some 13) none = [] ∧
    get_spending_summary dfA 1 (some 13) = [] :=
  month_out_of_range_empty dfA 1 13 none (by norm_num) (Or.inr (by norm_num)) (by decide)

/-- C5: a customer id absent from the table gets an empty sequence from every
per-customer operation — purchases query, pattern aggregation,
recommendations, spending summary and monthly trends — and no error. -/
theorem unknown_customer_empty (df : List Row) (u : Nat) (m : Option Int)
    (c : Option String) (mp : Int) (t : ℚ) (h : ∀ r ∈ df, r.customerId ≠ u) :
    get_user_purchases df u m c = [] ∧
    analyze_purchase_patterns df u = [] ∧
    generate_recommendations df u mp t = [] ∧
    get_spending_summary df u m = [] ∧
    get_monthly_trends df u = [] := by
  have h0 : userRows df u = [] := userRows_eq_nil h
  have ha : analyze_purchase_patterns df u = [] := by
    rw [analyze_eq, h0]
    rfl
  refine ⟨?_, ha, ?_, ?_, ?_⟩
  · show applyCategoryFilter (applyMonthFilter (userRows df u) m) c = []
    rw [h0, applyMonthFilter_nil, applyCategoryFilter_nil]
  · rw [gen_eq, ha]
    rfl
  · rw [spending_eq, h0, applyMonthFilter_nil]
    rfl
  · rw [monthly_eq, h0]
    rfl

theorem unknown_customer_empty_witness :
    get_user_purchases dfA 99 none none = [] ∧
    analyze_purchase_patterns dfA 99 = [] ∧
    generate_recommendations dfA 99 2 30 = [] ∧
    get_spending_summary dfA 99 none = [] ∧
    get_monthly_trends dfA 99 = [] :=
  unknown_customer_empty dfA 99 none none 2 30 (by decide)

/-- A product-aggregate row with a prescribed average interval, for testing
the filter band boundaries. -/
def statWith (q : ℚ) : ProductStat :=
  { itemName := "X", category := "Y", purchase_count := 3, first_purchase := 0,
    last_purchase := 45, avg_price := none, total_quantity := 3, days_span := 45,
    avg_interval := q }

/-- C6: an aggregate row passes the recommendation filter iff
`min_purchases ≤ purchase_count`, `0 < avg_interval` and
`target*0.5 ≤ avg_interval ≤ target*1.5`, both band boundaries inclusive:
with target 30, an interval of exactly 15 passes, 14.9 fails, exactly 45
passes and 45.1 fails. -/
theorem filter_band_inclusive (df : List Row) (u : Nat) (mp : Int) (t : ℚ) :
    (∀ s, s ∈ (analyze_purchase_patterns df u).filter (fun s => decide (recPred mp t s)) ↔
      s ∈ analyze_purchase_patterns df u ∧
        (mp ≤ (s.purchase_count : Int) ∧ 0 < s.avg_interval ∧
          t * 0.5 ≤ s.avg_interval ∧ s.avg_interval ≤ t * 1.5)) ∧
    recPred 2 30 (statWith 15) ∧ ¬ recPred 2 30 (statWith (149 / 10)) ∧
    recPred 2 30 (statWith 45) ∧ ¬ recPred 2 30 (statWith (451 / 10)) := by
  refine ⟨?_, ?_, ?_, ?_, ?_⟩
  · intro s
    rw [List.mem_filter, decide_eq_true_eq]
    unfold recPred
    tauto
  · exact ⟨by norm_num [statWith], by norm_num [statWith], by norm_num [statWith],
      by norm_num [statWith]⟩
  · rintro ⟨-, -, -, h⟩
    norm_num [statWith] at h
  · exact ⟨by norm_num [statWith], by norm_num [statWith], by norm_num [statWith],
      by norm_num [statWith]⟩
  · rintro ⟨-, -, h, -⟩
    norm_num [statWith] at h

/-- C7: summing the spending summary's per-category totals gives exactly the
sum of the clean prices of the purchases query for the same customer and
month, provided every clean price is a whole number of hundredths (as holds
for the analyzer's data, where repaired totals are integers and base prices
are cents). -/
theorem spending_roundtrip (df : List Row) (u : Nat) (m : Option Int)
    (hcents : ∀ r ∈ df, IsCent ((Row.cleanPrice r).getD 0)) :
    ((get_spending_summary df u m).map (fun c => c.total_spent)).sum =
      ((get_user_purchases df u m none).filterMap Row.cleanPrice).sum := by
  rw [show get_user_purchases df u m none = applyMonthFilter (userRows df u) m from rfl,
    spending_eq]
  set ud := applyMonthFilter (userRows df u) m with hud
  have hsub : ∀ r ∈ ud, r ∈ df := fun r hr =>
    userRows_subset df u (applyMonthFilter_subset _ m hr)
  rw [List.map_map]
  have h1 : ((ud.map (fun r => r.category)).dedup).map
        ((fun c : CategorySummary => c.total_spent) ∘ (fun c =>
          let g := ud.filter (fun r => r.category == c)
          ({ category := c
             total_spent := roundTo 2 (g.filterMap Row.cleanPrice).sum
             num_orders := ((g.map (fun r => r.orderId)).dedup).length
             num_items := g.length } : CategorySummary))) =
      ((ud.map (fun r => r.category)).dedup).map (fun c =>
        ((ud.filter (fun r => r.category == c)).map
          (fun r => (Row.cleanPrice r).getD 0)).sum) := by
    apply List.map_congr_left
    intro c hc
    show roundTo 2 (((ud.filter (fun r => r.category == c)).filterMap Row.cleanPrice).sum) = _
    rw [roundTo_two_of_isCent, sum_filterMap_eq_sum_map]
    apply isCent_sum
    intro q hq
    rcases List.mem_filterMap.mp hq with ⟨r, hr, hqr⟩
    have h2 := hcents r (hsub r (List.mem_of_mem_filter hr))
    rw [hqr] at h2
    simpa using h2
  rw [h1,
    sum_groups (fun r => r.category) (fun r => (Row.cleanPrice r).getD 0)
      ((ud.map (fun r => r.category)).dedup) (List.nodup_dedup _) ud
      (fun a ha => List.mem_dedup.mpr (List.mem_map_of_mem _ ha)),
    ← sum_filterMap_eq_sum_map]

theorem spending_roundtrip_witness :
    ((get_spending_summary dfA 1 none).map (fun c => c.total_spent)).sum =
      ((get_user_purchases dfA 1 none none).filterMap Row.cleanPrice).sum :=
  spending_roundtrip dfA 1 none (by
    intro r hr
    have hra : r = rowA := by simpa [dfA] using hr
    subst hra
    rw [cleanPrice_rowA]
    exact ⟨500, by norm_num [Option.getD]⟩)

end WalmartDashboard
